import Mathlib

/-!
Shallow embedding of `riva/client/auth.py`: the channel factory
`create_channel` and the `Auth` wrapper class.

The grpc library calls are modelled symbolically: credentials and channels
become inductive values recording exactly the arguments the source passes
to the corresponding grpc constructors.  The filesystem is a function from
paths to optional byte contents; `open(..., 'rb').read()` becomes a lookup
that fails (raises an I/O error) when the path is absent.  Python `bytes`
are lists of naturals, Python exceptions become an `Except` error value.
-/

namespace RivaAuth

/-- Contents of a file opened in binary mode. -/
abbrev Bytes := List Nat

/-- The ambient environment: the user's home directory (for
`Path.expanduser`) and the filesystem, mapping a path to the bytes of the
file there, or `none` when opening the file raises an I/O error. -/
structure Env where
  home : String
  fs : String → Option Bytes

/-- Model of `pathlib.Path.expanduser`: a leading `~` is replaced by the
home directory, any other path is returned unchanged. -/
def expanduser (env : Env) (p : String) : String :=
  match p.data with
  | '~' :: rest => env.home ++ String.mk rest
  | _ => p

/-- Python exceptions that the embedded code can raise. -/
inductive PyError where
  | ioError (path : String)
  | valueError (msg : String)
deriving DecidableEq, Repr

/-- Model of a grpc call-credentials object.  The source builds one from
`metadata_callback`, a closure that hands the captured `metadata` list to
the transport on every call; the model records that captured list. -/
inductive CallCredentials where
  | metadataCallCredentials (metadata : Option (List (String × String)))
deriving DecidableEq, Repr

/-- Model of grpc channel credentials: either bare SSL transport
credentials (with optional explicit root certificates, `none` meaning
platform defaults) or a composite of transport and call credentials. -/
inductive ChannelCredentials where
  | sslChannelCredentials (root_certificates : Option Bytes)
  | compositeChannelCredentials (transport : ChannelCredentials) (call : CallCredentials)
deriving DecidableEq, Repr

/-- Model of a grpc channel: the constructor used (secure or insecure)
together with the arguments the source passes to it. -/
inductive Channel where
  | secureChannel (uri : String) (credentials : ChannelCredentials) (options : List (String × Nat))
  | insecureChannel (uri : String) (options : List (String × Nat))
deriving DecidableEq, Repr

/-- `grpc.ssl_channel_credentials`. -/
def ssl_channel_credentials (root_certificates : Option Bytes) : ChannelCredentials :=
  ChannelCredentials.sslChannelCredentials root_certificates

/-- `grpc.metadata_call_credentials` applied to `metadata_callback`: the
callback invokes `callback(metadata, None)`, so the credentials carry the
captured `metadata`. -/
def metadata_call_credentials (metadata : Option (List (String × String))) : CallCredentials :=
  CallCredentials.metadataCallCredentials metadata

/-- `grpc.composite_channel_credentials`. -/
def composite_channel_credentials (c : ChannelCredentials) (a : CallCredentials) :
    ChannelCredentials :=
  ChannelCredentials.compositeChannelCredentials c a

/-- `grpc.secure_channel`. -/
def secure_channel (uri : String) (c : ChannelCredentials) (options : List (String × Nat)) :
    Channel :=
  Channel.secureChannel uri c options

/-- `grpc.insecure_channel`. -/
def insecure_channel (uri : String) (options : List (String × Nat)) : Channel :=
  Channel.insecureChannel uri options

/-- Python truthiness of an `Optional[List]`: `None` and `[]` are falsy. -/
def listTruthy (m : Option (List α)) : Bool :=
  match m with
  | none => false
  | some l => !l.isEmpty

/-- The default of the `max_message_length` parameter, `64 * 1024 * 1024`. -/
def defaultMaxMessageLength : Nat := 64 * 1024 * 1024

/-- The default of the `uri` parameter. -/
def defaultUri : String := "localhost:50051"

/-- The channel options the source builds from `max_message_length`. -/
def messageLengthOptions (max_message_length : Nat) : List (String × Nat) :=
  [("grpc.max_receive_message_length", max_message_length),
    ("grpc.max_send_message_length", max_message_length)]

/-- Embedding of `create_channel`.  Mirrors the source line by line: build
the options list; on the secure branch (`ssl_cert is not None or use_ssl`)
expand and read the certificate file when a path is given (an unreadable
file raises), build SSL credentials from the bytes read (or `None`),
compose with metadata call credentials when `metadata` is truthy, and open
a secure channel; otherwise open an insecure channel. -/
def create_channel (env : Env) (ssl_cert : Option String) (use_ssl : Bool) (uri : String)
    (metadata : Option (List (String × String))) (max_message_length : Nat) :
    Except PyError Channel :=
  let metadata_callback := metadata_call_credentials metadata
  let options := messageLengthOptions max_message_length
  if ssl_cert.isSome || use_ssl then
    (match ssl_cert with
      | none => Except.ok (none : Option Bytes)
      | some c =>
        let c := expanduser env c
        match env.fs c with
        | none => Except.error (PyError.ioError c)
        | some b => Except.ok (some b)).bind (fun root_certificates =>
      let creds := ssl_channel_credentials root_certificates
      let creds := if listTruthy metadata then
          composite_channel_credentials creds metadata_callback
        else creds
      Except.ok (secure_channel uri creds options))
  else
    Except.ok (insecure_channel uri options)

/-- Conversion of a validated raw metadata record to a pair:
`tuple(meta)` for a two-element list. -/
def tupleOfRecord (m : List String) : String × String :=
  (m.getD 0 "", m.getD 1 "")

/-- The `ValueError` message raised for a record of length `n`, verbatim
from the source (including its spelling). -/
def metadataLenErrMsg (n : Nat) : String :=
  "Metadata should have 2 parameters in \"key\" \"value\" pair. Receieved "
    ++ toString n ++ " parameters."

/-- The validation loop of `Auth.__init__` over `metadata_args`: each
record must have exactly two fields, a violation raises `ValueError` with
the observed length; valid records are converted to tuples in order. -/
def validateMetadataArgs : List (List String) → Except PyError (List (String × String))
  | [] => Except.ok []
  | meta :: rest =>
    if meta.length = 2 then
      match validateMetadataArgs rest with
      | Except.error e => Except.error e
      | Except.ok tl => Except.ok (tupleOfRecord meta :: tl)
    else
      Except.error (PyError.valueError (metadataLenErrMsg meta.length))

/-- The fields of a constructed `Auth` object. -/
structure Auth where
  ssl_cert : Option String
  uri : String
  use_ssl : Bool
  metadata : List (String × String)
  channel : Channel
deriving DecidableEq, Repr

/-- Embedding of `Auth.__init__`: store the expanded certificate path,
uri and flag; validate `metadata_args` (skipped when falsy) collecting the
tuples; then build the channel from the stored fields. -/
def Auth.init (env : Env) (ssl_cert : Option String) (use_ssl : Bool) (uri : String)
    (metadata_args : Option (List (List String))) (max_message_length : Nat) :
    Except PyError Auth :=
  let cert := ssl_cert.map (expanduser env)
  match (match metadata_args with
    | none => Except.ok []
    | some args => if args.isEmpty then Except.ok [] else validateMetadataArgs args) with
  | Except.error e => Except.error e
  | Except.ok md =>
    match create_channel env cert use_ssl uri (some md) max_message_length with
    | Except.error e => Except.error e
    | Except.ok ch => Except.ok ⟨cert, uri, use_ssl, md, ch⟩

/-- Embedding of `Auth.get_auth_metadata`: the method body is
`return self.metadata`, so with the object state passed explicitly it
returns the stored metadata and the unchanged object. -/
def Auth.get_auth_metadata (a : Auth) : List (String × String) × Auth :=
  (a.metadata, a)

/-- Whether a channel was opened with `grpc.secure_channel`. -/
def Channel.isSecure : Channel → Bool
  | Channel.secureChannel _ _ _ => true
  | Channel.insecureChannel _ _ => false

/-- The options list a channel was opened with. -/
def Channel.channelOptions : Channel → List (String × Nat)
  | Channel.secureChannel _ _ o => o
  | Channel.insecureChannel _ o => o

/-- The credentials attached to a channel (`none` for an insecure one). -/
def Channel.credentials : Channel → Option ChannelCredentials
  | Channel.secureChannel _ c _ => some c
  | Channel.insecureChannel _ _ => none

/-- The root-certificate material of the transport layer of a
credentials object. -/
def ChannelCredentials.transportRoot : ChannelCredentials → Option Bytes
  | ChannelCredentials.sslChannelCredentials root => root
  | ChannelCredentials.compositeChannelCredentials t _ => t.transportRoot

/-- Whether credentials are a composite of transport and call
credentials. -/
def ChannelCredentials.isComposite : ChannelCredentials → Bool
  | ChannelCredentials.compositeChannelCredentials _ _ => true
  | ChannelCredentials.sslChannelCredentials _ => false

/-- The metadata the credentials inject into a call: a composite's call
credentials hand their captured list to every request, bare transport
credentials inject nothing. -/
def ChannelCredentials.injectedMetadata : ChannelCredentials → List (String × String)
  | ChannelCredentials.sslChannelCredentials _ => []
  | ChannelCredentials.compositeChannelCredentials _ (CallCredentials.metadataCallCredentials m) =>
    m.getD []

/-- The static metadata the channel itself attaches to every request made
over it: the metadata injected by its credentials, nothing for an
insecure channel. -/
def Channel.perCallMetadata : Channel → List (String × String)
  | Channel.secureChannel _ c _ => c.injectedMetadata
  | Channel.insecureChannel _ _ => []

/-! ### Concrete environments used to instantiate theorems -/

/-- An environment whose filesystem has no readable files. -/
def envEmpty : Env := ⟨"/home/user", fun _ => none⟩

/-- An environment with a single certificate file at `/certs/ca.pem`. -/
def envWithCert : Env :=
  ⟨"/home/user", fun p => if p = "/certs/ca.pem" then some [48, 49, 50] else none⟩

/-! ### Equation lemmas for the branches of `create_channel` -/

/-- On the insecure branch (no certificate, SSL not forced) the source
opens an insecure channel with just the message-size options. -/
theorem create_channel_insecure_eq (env : Env) (uri : String)
    (md : Option (List (String × String))) (L : Nat) :
    create_channel env none false uri md L
      = Except.ok (insecure_channel uri (messageLengthOptions L)) := rfl

/-- With no certificate path and SSL forced, the source builds SSL
credentials from `None` root certificates. -/
theorem create_channel_default_roots_eq (env : Env) (uri : String)
    (md : Option (List (String × String))) (L : Nat) :
    create_channel env none true uri md L
      = Except.ok (secure_channel uri
          (if listTruthy md then
            composite_channel_credentials (ssl_channel_credentials none)
              (metadata_call_credentials md)
          else ssl_channel_credentials none)
          (messageLengthOptions L)) := rfl

/-- With a certificate path whose (expanded) file is readable, the source
builds SSL credentials from exactly the bytes read. -/
theorem create_channel_cert_eq (env : Env) (p : String) (use_ssl : Bool) (uri : String)
    (md : Option (List (String × String))) (L : Nat) (b : Bytes)
    (h : env.fs (expanduser env p) = some b) :
    create_channel env (some p) use_ssl uri md L
      = Except.ok (secure_channel uri
          (if listTruthy md then
            composite_channel_credentials (ssl_channel_credentials (some b))
              (metadata_call_credentials md)
          else ssl_channel_credentials (some b))
          (messageLengthOptions L)) := by
  simp [create_channel, h, Except.bind, ssl_channel_credentials, composite_channel_credentials,
    metadata_call_credentials, secure_channel]

/-- With a certificate path whose (expanded) file is unreadable, the file
open raises and `create_channel` propagates the I/O error. -/
theorem create_channel_cert_missing_eq (env : Env) (p : String) (use_ssl : Bool) (uri : String)
    (md : Option (List (String × String))) (L : Nat)
    (h : env.fs (expanduser env p) = none) :
    create_channel env (some p) use_ssl uri md L
      = Except.error (PyError.ioError (expanduser env p)) := by
  simp [create_channel, h, Except.bind]

/-! ### Lemmas about the metadata validation loop -/

/-- When every record has exactly two fields, validation succeeds and
returns the records converted to tuples, in order. -/
theorem validateMetadataArgs_ok (args : List (List String))
    (h : ∀ m ∈ args, m.length = 2) :
    validateMetadataArgs args = Except.ok (args.map tupleOfRecord) := by
  induction args with
  | nil => rfl
  | cons meta rest ih =>
    have h2 : meta.length = 2 := h meta (List.mem_cons_self _ _)
    have hr := ih (fun m hm => h m (List.mem_cons_of_mem _ hm))
    simp [validateMetadataArgs, h2, hr]

/-- When some record has a field count other than two, validation raises
`ValueError` whose message carries an actually observed bad field count. -/
theorem validateMetadataArgs_err (args : List (List String))
    (h : ∃ m ∈ args, m.length ≠ 2) :
    ∃ n, n ≠ 2 ∧ (∃ m ∈ args, m.length = n) ∧
      validateMetadataArgs args
        = Except.error (PyError.valueError (metadataLenErrMsg n)) := by
  induction args with
  | nil => simp at h
  | cons meta rest ih =>
    by_cases h2 : meta.length = 2
    · obtain ⟨m, hm, hlen⟩ := h
      rcases List.mem_cons.mp hm with rfl | hm'
      · exact absurd h2 hlen
      · obtain ⟨n, hn2, ⟨m', hm'', hlen'⟩, herr⟩ := ih ⟨m, hm', hlen⟩
        exact ⟨n, hn2, ⟨m', List.mem_cons_of_mem _ hm'', hlen'⟩,
          by simp [validateMetadataArgs, h2, herr]⟩
    · exact ⟨meta.length, h2, ⟨meta, List.mem_cons_self _ _, rfl⟩,
        by simp [validateMetadataArgs, h2]⟩

/-- The metadata processing step of `Auth.init` on a list of valid
records: the stored metadata is the tuple conversion of the input. -/
theorem auth_metadata_step_ok (args : List (List String))
    (h : ∀ m ∈ args, m.length = 2) :
    (if args.isEmpty then Except.ok [] else validateMetadataArgs args)
      = Except.ok (args.map tupleOfRecord) := by
  cases args with
  | nil => rfl
  | cons meta rest => simp [validateMetadataArgs_ok _ h]

/-! ### Claim theorems -/

/-- C1: if some raw metadata record has a field count other than two,
`Auth` construction fails with a `ValueError` whose message states an
actually observed bad field count (the message is literally the fixed text
around the decimal rendering of that count), and, the result being an
error, no `Auth` object holding a channel is produced — construction does
not proceed to build a channel. -/
theorem auth_init_bad_record_fails (env : Env) (ssl_cert : Option String) (use_ssl : Bool)
    (uri : String) (args : List (List String)) (L : Nat)
    (h : ∃ m ∈ args, m.length ≠ 2) :
    ∃ n, n ≠ 2 ∧ (∃ m ∈ args, m.length = n) ∧
      Auth.init env ssl_cert use_ssl uri (some args) L
        = Except.error (PyError.valueError (metadataLenErrMsg n)) ∧
      metadataLenErrMsg n
        = "Metadata should have 2 parameters in \"key\" \"value\" pair. Receieved "
            ++ toString n ++ " parameters." := by
  obtain ⟨n, hn2, hmem, herr⟩ := validateMetadataArgs_err args h
  have hne : args.isEmpty = false := by
    obtain ⟨m, hm, _⟩ := h
    cases args with
    | nil => simp at hm
    | cons a l => rfl
  refine ⟨n, hn2, hmem, ?_, rfl⟩
  simp [Auth.init, hne, herr]

/-- Witness for C1 at the concrete record list `[["a", "b", "c"]]`. -/
theorem auth_init_bad_record_fails_witness :
    (∃ m ∈ [["a", "b", "c"]], m.length ≠ 2) ∧
    ∃ n, n ≠ 2 ∧ (∃ m ∈ [["a", "b", "c"]], m.length = n) ∧
      Auth.init envEmpty none false defaultUri (some [["a", "b", "c"]]) defaultMaxMessageLength
        = Except.error (PyError.valueError (metadataLenErrMsg n)) ∧
      metadataLenErrMsg n
        = "Metadata should have 2 parameters in \"key\" \"value\" pair. Receieved "
            ++ toString n ++ " parameters." :=
  ⟨by decide,
    auth_init_bad_record_fails envEmpty none false defaultUri [["a", "b", "c"]]
      defaultMaxMessageLength (by decide)⟩

/-- C2: when every raw metadata record has exactly two elements and the
channel build succeeds, `Auth` construction succeeds, the stored metadata
list is the input records converted to pairs in input order, and
`get_auth_metadata` returns exactly that list. -/
theorem auth_init_valid_records_ok (env : Env) (ssl_cert : Option String) (use_ssl : Bool)
    (uri : String) (args : List (List String)) (L : Nat) (ch : Channel)
    (h : ∀ m ∈ args, m.length = 2)
    (hch : create_channel env (ssl_cert.map (expanduser env)) use_ssl uri
        (some (args.map tupleOfRecord)) L = Except.ok ch) :
    Auth.init env ssl_cert use_ssl uri (some args) L
      = Except.ok ⟨ssl_cert.map (expanduser env), uri, use_ssl, args.map tupleOfRecord, ch⟩ ∧
    (Auth.get_auth_metadata
        ⟨ssl_cert.map (expanduser env), uri, use_ssl, args.map tupleOfRecord, ch⟩).1
      = args.map tupleOfRecord := by
  refine ⟨?_, rfl⟩
  cases args with
  | nil =>
    simp only [List.map_nil] at hch
    simp [Auth.init, hch]
  | cons a l =>
    have h1 : validateMetadataArgs (a :: l) = Except.ok ((a :: l).map tupleOfRecord) :=
      validateMetadataArgs_ok _ h
    simp only [List.map_cons] at hch h1
    simp [Auth.init, h1, hch]

/-- Witness for C2 at the concrete record list
`[["authorization", "token123"], ["k", "v"]]` on the insecure branch. -/
theorem auth_init_valid_records_ok_witness :
    (∀ m ∈ [["authorization", "token123"], ["k", "v"]], m.length = 2) ∧
    (Auth.init envEmpty none false defaultUri
        (some [["authorization", "token123"], ["k", "v"]]) defaultMaxMessageLength
      = Except.ok ⟨none, defaultUri, false, [("authorization", "token123"), ("k", "v")],
          insecure_channel defaultUri (messageLengthOptions defaultMaxMessageLength)⟩ ∧
    (Auth.get_auth_metadata
        ⟨none, defaultUri, false, [("authorization", "token123"), ("k", "v")],
          insecure_channel defaultUri (messageLengthOptions defaultMaxMessageLength)⟩).1
      = [("authorization", "token123"), ("k", "v")]) :=
  ⟨by decide,
    auth_init_valid_records_ok envEmpty none false defaultUri
      [["authorization", "token123"], ["k", "v"]] defaultMaxMessageLength
      (insecure_channel defaultUri (messageLengthOptions defaultMaxMessageLength))
      (by decide) rfl⟩

/-- C3: whenever a certificate path is given, whatever the use-SSL flag,
`create_channel` opens a secure channel whose transport credentials carry,
as root certificate material, exactly the bytes read from the file at the
(user-expanded) certificate path. -/
theorem create_channel_cert_secure_root (env : Env) (p : String) (use_ssl : Bool)
    (uri : String) (md : Option (List (String × String))) (L : Nat) (b : Bytes)
    (h : env.fs (expanduser env p) = some b) :
    ∃ ch, create_channel env (some p) use_ssl uri md L = Except.ok ch ∧
      ch.isSecure = true ∧
      ∃ creds, ch.credentials = some creds ∧ creds.transportRoot = some b := by
  rw [create_channel_cert_eq env p use_ssl uri md L b h]
  cases hm : listTruthy md with
  | false =>
    exact ⟨_, rfl, rfl, ssl_channel_credentials (some b), by simp [hm, secure_channel,
      Channel.credentials], by simp [ssl_channel_credentials, ChannelCredentials.transportRoot]⟩
  | true =>
    exact ⟨_, rfl, rfl,
      composite_channel_credentials (ssl_channel_credentials (some b))
        (metadata_call_credentials md),
      by simp [hm, secure_channel, Channel.credentials],
      by simp [ssl_channel_credentials, composite_channel_credentials,
        ChannelCredentials.transportRoot]⟩

/-- Witness for C3 at the concrete path `/certs/ca.pem` with contents
`[48, 49, 50]`, with the use-SSL flag off. -/
theorem create_channel_cert_secure_root_witness :
    (envWithCert.fs (expanduser envWithCert "/certs/ca.pem") = some [48, 49, 50]) ∧
    ∃ ch, create_channel envWithCert (some "/certs/ca.pem") false defaultUri none
        defaultMaxMessageLength = Except.ok ch ∧
      ch.isSecure = true ∧
      ∃ creds, ch.credentials = some creds ∧ creds.transportRoot = some [48, 49, 50] :=
  ⟨by decide,
    create_channel_cert_secure_root envWithCert "/certs/ca.pem" false defaultUri none
      defaultMaxMessageLength [48, 49, 50] (by decide)⟩

/-- C4: when the use-SSL flag is true and no certificate path is given,
`create_channel` opens a secure channel whose transport credentials carry
no explicit root certificate bytes (platform default trust roots). -/
theorem create_channel_ssl_default_roots (env : Env) (uri : String)
    (md : Option (List (String × String))) (L : Nat) :
    ∃ ch, create_channel env none true uri md L = Except.ok ch ∧
      ch.isSecure = true ∧
      ∃ creds, ch.credentials = some creds ∧ creds.transportRoot = none := by
  rw [create_channel_default_roots_eq env uri md L]
  cases hm : listTruthy md with
  | false =>
    exact ⟨_, rfl, rfl, ssl_channel_credentials none, by simp [hm, secure_channel,
      Channel.credentials], by simp [ssl_channel_credentials, ChannelCredentials.transportRoot]⟩
  | true =>
    exact ⟨_, rfl, rfl,
      composite_channel_credentials (ssl_channel_credentials none)
        (metadata_call_credentials md),
      by simp [hm, secure_channel, Channel.credentials],
      by simp [ssl_channel_credentials, composite_channel_credentials,
        ChannelCredentials.transportRoot]⟩

/-- C5: when no certificate path is given and the use-SSL flag is false,
`create_channel` opens an insecure channel carrying no credentials. -/
theorem create_channel_insecure_no_creds (env : Env) (uri : String)
    (md : Option (List (String × String))) (L : Nat) :
    create_channel env none false uri md L
        = Except.ok (insecure_channel uri (messageLengthOptions L)) ∧
      (insecure_channel uri (messageLengthOptions L)).isSecure = false ∧
      (insecure_channel uri (messageLengthOptions L)).credentials = none :=
  ⟨rfl, rfl, rfl⟩

/-- The channel `create_channel` builds from SSL-forced defaults with the
single metadata pair `("authorization", "token123")`. -/
def secureTokenChannel : Channel :=
  secure_channel defaultUri
    (composite_channel_credentials (ssl_channel_credentials none)
      (metadata_call_credentials (some [("authorization", "token123")])))
    (messageLengthOptions defaultMaxMessageLength)

/-- C6 counterexample: a connection constructed by `create_channel` with a
non-empty metadata list but on the insecure branch attaches no metadata to
its requests — the claim that the pairs are attached "whether the
connection is secure or insecure" fails on the insecure branch. -/
theorem create_channel_insecure_metadata_unattached :
    ∃ ch, create_channel envEmpty none false defaultUri
        (some [("authorization", "token123")]) defaultMaxMessageLength = Except.ok ch ∧
      ch.perCallMetadata ≠ [("authorization", "token123")] :=
  ⟨insecure_channel defaultUri (messageLengthOptions defaultMaxMessageLength), rfl, by decide⟩

/-- C6 amended: for every connection `create_channel` builds with a
non-empty metadata list, the static pairs are attached to every request
exactly when the connection is secure (certificate path given or SSL
forced); an insecure connection attaches none of them. -/
theorem create_channel_metadata_secure_only (env : Env) (sc : Option String) (us : Bool)
    (uri : String) (md : List (String × String)) (L : Nat) (ch : Channel)
    (hmd : md ≠ [])
    (h : create_channel env sc us uri (some md) L = Except.ok ch) :
    ch.perCallMetadata = if sc.isSome || us then md else [] := by
  have hm : listTruthy (some md) = true := by
    simp [listTruthy, List.isEmpty_iff, hmd]
  cases sc with
  | none =>
    cases us with
    | false =>
      rw [create_channel_insecure_eq] at h
      simp only [Except.ok.injEq] at h
      subst h
      rfl
    | true =>
      rw [create_channel_default_roots_eq] at h
      rw [hm] at h
      simp only [if_true, Except.ok.injEq] at h
      subst h
      simp [secure_channel, Channel.perCallMetadata, composite_channel_credentials,
        ssl_channel_credentials, metadata_call_credentials, ChannelCredentials.injectedMetadata]
  | some p =>
    cases hfs : env.fs (expanduser env p) with
    | none =>
      rw [create_channel_cert_missing_eq _ _ _ _ _ _ hfs] at h
      exact absurd h (by simp)
    | some b =>
      rw [create_channel_cert_eq _ _ _ _ _ _ _ hfs] at h
      rw [hm] at h
      simp only [if_true, Except.ok.injEq] at h
      subst h
      simp [secure_channel, Channel.perCallMetadata, composite_channel_credentials,
        ssl_channel_credentials, metadata_call_credentials, ChannelCredentials.injectedMetadata]

/-- Witness for the amended C6 on the SSL-forced branch with the pair
`("authorization", "token123")`. -/
theorem create_channel_metadata_secure_only_witness :
    (([("authorization", "token123")] : List (String × String)) ≠ []) ∧
    create_channel envEmpty none true defaultUri (some [("authorization", "token123")])
        defaultMaxMessageLength = Except.ok secureTokenChannel ∧
    secureTokenChannel.perCallMetadata
      = if (none : Option String).isSome || true then [("authorization", "token123")] else [] :=
  ⟨by decide, rfl,
    create_channel_metadata_secure_only envEmpty none true defaultUri
      [("authorization", "token123")] defaultMaxMessageLength secureTokenChannel
      (by decide) rfl⟩

/-- Any channel `create_channel` returns carries exactly the two
message-size options built from `max_message_length`. -/
theorem channelOptions_of_create_channel (env : Env) (sc : Option String) (us : Bool)
    (uri : String) (md : Option (List (String × String))) (L : Nat) (ch : Channel)
    (h : create_channel env sc us uri md L = Except.ok ch) :
    ch.channelOptions = messageLengthOptions L := by
  cases sc with
  | none =>
    cases us with
    | false =>
      rw [create_channel_insecure_eq] at h
      simp only [Except.ok.injEq] at h
      subst h
      rfl
    | true =>
      rw [create_channel_default_roots_eq] at h
      simp only [Except.ok.injEq] at h
      subst h
      rfl
  | some p =>
    cases hfs : env.fs (expanduser env p) with
    | none =>
      rw [create_channel_cert_missing_eq _ _ _ _ _ _ hfs] at h
      exact absurd h (by simp)
    | some b =>
      rw [create_channel_cert_eq _ _ _ _ _ _ _ hfs] at h
      simp only [Except.ok.injEq] at h
      subst h
      rfl

/-- The channel stored by a successfully constructed `Auth` comes from
`create_channel` on the stored fields. -/
theorem auth_channel_options (env : Env) (sc : Option String) (us : Bool) (uri : String)
    (margs : Option (List (List String))) (L : Nat) (a : Auth)
    (h : Auth.init env sc us uri margs L = Except.ok a) :
    a.channel.channelOptions = messageLengthOptions L := by
  unfold Auth.init at h
  cases hmd : (match margs with
    | none => Except.ok ([] : List (String × String))
    | some args => if args.isEmpty then Except.ok [] else validateMetadataArgs args) with
  | error e =>
    rw [hmd] at h
    simp at h
  | ok md =>
    rw [hmd] at h
    simp only at h
    cases hch : create_channel env (sc.map (expanduser env)) us uri (some md) L with
    | error e =>
      rw [hch] at h
      simp at h
    | ok ch =>
      rw [hch] at h
      simp only [Except.ok.injEq] at h
      subst h
      exact channelOptions_of_create_channel _ _ _ _ _ _ _ hch

/-- C7: every channel `create_channel` returns, and the channel stored by
every successfully constructed `Auth`, carries the two message-size
options (receive and send) equal to the configured maximum message
length, whose default is 67,108,864 bytes. -/
theorem message_size_options_and_default (env : Env) (sc : Option String) (us : Bool)
    (uri : String) (md : Option (List (String × String))) (L : Nat) (ch : Channel)
    (env2 : Env) (sc2 : Option String) (us2 : Bool) (uri2 : String)
    (margs : Option (List (List String))) (L2 : Nat) (a : Auth)
    (h1 : create_channel env sc us uri md L = Except.ok ch)
    (h2 : Auth.init env2 sc2 us2 uri2 margs L2 = Except.ok a) :
    defaultMaxMessageLength = 67108864 ∧
    ch.channelOptions = [("grpc.max_receive_message_length", L),
      ("grpc.max_send_message_length", L)] ∧
    a.channel.channelOptions = [("grpc.max_receive_message_length", L2),
      ("grpc.max_send_message_length", L2)] :=
  ⟨rfl, channelOptions_of_create_channel _ _ _ _ _ _ _ h1,
    auth_channel_options _ _ _ _ _ _ _ h2⟩

/-- Witness for C7 at the insecure defaults. -/
theorem message_size_options_and_default_witness :
    (create_channel envEmpty none false defaultUri none defaultMaxMessageLength
      = Except.ok (insecure_channel defaultUri (messageLengthOptions defaultMaxMessageLength))) ∧
    (Auth.init envEmpty none false defaultUri none defaultMaxMessageLength
      = Except.ok ⟨none, defaultUri, false, [],
          insecure_channel defaultUri (messageLengthOptions defaultMaxMessageLength)⟩) ∧
    (defaultMaxMessageLength = 67108864 ∧
    (insecure_channel defaultUri (messageLengthOptions defaultMaxMessageLength)).channelOptions
      = [("grpc.max_receive_message_length", defaultMaxMessageLength),
        ("grpc.max_send_message_length", defaultMaxMessageLength)] ∧
    (Auth.channel ⟨none, defaultUri, false, [],
        insecure_channel defaultUri (messageLengthOptions defaultMaxMessageLength)⟩).channelOptions
      = [("grpc.max_receive_message_length", defaultMaxMessageLength),
        ("grpc.max_send_message_length", defaultMaxMessageLength)]) :=
  ⟨rfl, rfl,
    message_size_options_and_default envEmpty none false defaultUri none
      defaultMaxMessageLength
      (insecure_channel defaultUri (messageLengthOptions defaultMaxMessageLength))
      envEmpty none false defaultUri none defaultMaxMessageLength
      ⟨none, defaultUri, false, [],
        insecure_channel defaultUri (messageLengthOptions defaultMaxMessageLength)⟩
      rfl rfl⟩

/-- C8: when a certificate path is given but the file there (after user
expansion — `Auth` expands once and `create_channel` expands the stored
path again) is unreadable, both `create_channel` and `Auth` construction
(with well-formed metadata records, so that validation reaches the channel
build) fail with the underlying I/O error; the result being an error, no
channel handle is returned. -/
theorem cert_missing_io_error (env : Env) (p : String) (us : Bool) (uri : String)
    (md : Option (List (String × String))) (L : Nat)
    (margs : Option (List (List String)))
    (hv : ∀ m ∈ margs.getD [], m.length = 2)
    (h1 : env.fs (expanduser env p) = none)
    (h2 : env.fs (expanduser env (expanduser env p)) = none) :
    create_channel env (some p) us uri md L
        = Except.error (PyError.ioError (expanduser env p)) ∧
    Auth.init env (some p) us uri margs L
        = Except.error (PyError.ioError (expanduser env (expanduser env p))) := by
  refine ⟨create_channel_cert_missing_eq env p us uri md L h1, ?_⟩
  have hcc : ∀ md' : List (String × String),
      create_channel env (some (expanduser env p)) us uri (some md') L
        = Except.error (PyError.ioError (expanduser env (expanduser env p))) :=
    fun md' => create_channel_cert_missing_eq env (expanduser env p) us uri (some md') L h2
  cases margs with
  | none => simp [Auth.init, hcc]
  | some args =>
    cases args with
    | nil => simp [Auth.init, hcc]
    | cons a l =>
      have hval := validateMetadataArgs_ok (a :: l) (by simpa using hv)
      simp [Auth.init, hval, hcc]

/-- Witness for C8 at the missing path `/missing.pem` with one valid
metadata record. -/
theorem cert_missing_io_error_witness :
    (∀ m ∈ (some [["k", "v"]] : Option (List (List String))).getD [], m.length = 2) ∧
    (envEmpty.fs (expanduser envEmpty "/missing.pem") = none) ∧
    (envEmpty.fs (expanduser envEmpty (expanduser envEmpty "/missing.pem")) = none) ∧
    (create_channel envEmpty (some "/missing.pem") false defaultUri none defaultMaxMessageLength
        = Except.error (PyError.ioError (expanduser envEmpty "/missing.pem")) ∧
    Auth.init envEmpty (some "/missing.pem") false defaultUri (some [["k", "v"]])
        defaultMaxMessageLength
        = Except.error (PyError.ioError
            (expanduser envEmpty (expanduser envEmpty "/missing.pem")))) :=
  ⟨by decide, by decide, by decide,
    cert_missing_io_error envEmpty "/missing.pem" false defaultUri none defaultMaxMessageLength
      (some [["k", "v"]]) (by decide) (by decide) (by decide)⟩

/-- C9: the embedded `Auth` operations are read-only: `get_auth_metadata`
returns the stored metadata and leaves every field of the object
(certificate path, uri, use-SSL flag, metadata list, channel handle)
unchanged. -/
theorem auth_read_only (a : Auth) :
    (a.get_auth_metadata).1 = a.metadata ∧
    (a.get_auth_metadata).2.ssl_cert = a.ssl_cert ∧
    (a.get_auth_metadata).2.uri = a.uri ∧
    (a.get_auth_metadata).2.use_ssl = a.use_ssl ∧
    (a.get_auth_metadata).2.metadata = a.metadata ∧
    (a.get_auth_metadata).2.channel = a.channel :=
  ⟨rfl, rfl, rfl, rfl, rfl, rfl⟩

/-- The credentials built on the secure branch: a composite exactly when
the metadata is truthy, otherwise the bare SSL credentials. -/
theorem creds_shape (root : Option Bytes) (md : Option (List (String × String))) :
    (if listTruthy md then
        composite_channel_credentials (ssl_channel_credentials root)
          (metadata_call_credentials md)
      else ssl_channel_credentials root).isComposite = listTruthy md ∧
    (listTruthy md = false →
      ∃ r, (if listTruthy md then
          composite_channel_credentials (ssl_channel_credentials root)
            (metadata_call_credentials md)
        else ssl_channel_credentials root) = ssl_channel_credentials r) := by
  cases hm : listTruthy md with
  | false =>
    refine ⟨?_, fun _ => ⟨root, by simp⟩⟩
    simp [ssl_channel_credentials, ChannelCredentials.isComposite]
  | true =>
    refine ⟨?_, fun hc => absurd hc (by simp)⟩
    simp [composite_channel_credentials, ssl_channel_credentials, metadata_call_credentials,
      ChannelCredentials.isComposite]

/-- C10: on the secure branch (certificate path given or SSL forced), the
channel's credentials are a composite with call credentials exactly when
the metadata list is truthy (non-`None` and non-empty); otherwise the
channel carries the bare transport credentials only. -/
theorem secure_branch_call_creds_iff (env : Env) (sc : Option String) (us : Bool)
    (uri : String) (md : Option (List (String × String))) (L : Nat) (ch : Channel)
    (hsec : sc.isSome || us = true)
    (h : create_channel env sc us uri md L = Except.ok ch) :
    ∃ creds, ch.credentials = some creds ∧
      creds.isComposite = listTruthy md ∧
      (listTruthy md = false → ∃ r, creds = ssl_channel_credentials r) := by
  cases sc with
  | none =>
    cases us with
    | false => simp at hsec
    | true =>
      rw [create_channel_default_roots_eq] at h
      simp only [Except.ok.injEq] at h
      subst h
      exact ⟨_, rfl, creds_shape none md⟩
  | some p =>
    cases hfs : env.fs (expanduser env p) with
    | none =>
      rw [create_channel_cert_missing_eq _ _ _ _ _ _ hfs] at h
      exact absurd h (by simp)
    | some b =>
      rw [create_channel_cert_eq _ _ _ _ _ _ _ hfs] at h
      simp only [Except.ok.injEq] at h
      subst h
      exact ⟨_, rfl, creds_shape (some b) md⟩

/-- Witness for C10 on the SSL-forced branch with `None` metadata. -/
theorem secure_branch_call_creds_iff_witness :
    ((none : Option String).isSome || true) = true ∧
    (create_channel envEmpty none true defaultUri none defaultMaxMessageLength
      = Except.ok (secure_channel defaultUri (ssl_channel_credentials none)
          (messageLengthOptions defaultMaxMessageLength))) ∧
    ∃ creds, (secure_channel defaultUri (ssl_channel_credentials none)
        (messageLengthOptions defaultMaxMessageLength)).credentials = some creds ∧
      creds.isComposite = listTruthy (none : Option (List (String × String))) ∧
      (listTruthy (none : Option (List (String × String))) = false →
        ∃ r, creds = ssl_channel_credentials r) :=
  ⟨by decide, rfl,
    secure_branch_call_creds_iff envEmpty none true defaultUri none defaultMaxMessageLength
      (secure_channel defaultUri (ssl_channel_credentials none)
        (messageLengthOptions defaultMaxMessageLength))
      (by decide) rfl⟩

end RivaAuth
